import Mathlib

set_option maxHeartbeats 1000000

/-!
Verification of the cbauth internal implementation (package cbauthimpl)
against its natural-language specification.

The Go source is embedded shallowly:

* Go slices become Lean lists, Go strings become Lean Strings, Go ints
  become Int/Nat.
* The stateful Svc is a record threaded explicitly through each
  operation; mutexes and the outbound-call semaphore disappear in this
  sequential model (they only serialize, they never change a result), and
  the fetchDB wait on freshChan only delays a read without changing the
  value read, so fetchDB returns the current db.
* Outbound HTTP calls are oracled: each operation takes the authority's
  response as an explicit argument and returns the list of requests it
  issued, so "no outbound call" is "the request list is empty".
* Fallible Go functions return Except/Option; a Go runtime panic is a
  distinguished outcome where it is reachable.
-/

namespace Cbauthimpl

/-! ### Model of the Go net package pieces used by matchHost

Go's net.ParseIP returns every successfully parsed address in 16-byte
form (IPv4 addresses in their 4-in-6 representation), or nil on failure.
The model mirrors that: an address is a 16-entry byte list, parsing
returns an Option. IPv6 zone suffixes are not modelled (they never reach
matchHost in this repository); everything is structural recursion so
concrete inputs evaluate by rfl/decide. -/

abbrev IPBytes := List Nat

/-- Decimal value of a digit list (used for IPv4 fields). -/
def decVal (l : List Char) : Nat :=
  l.foldl (fun a c => a * 10 + (c.toNat - 48)) 0

/-- Hexadecimal digit test, as in Go's xtoi. -/
def isHexDigit (c : Char) : Bool :=
  c.isDigit || (Char.ofNat 97 ≤ c && c ≤ Char.ofNat 102) ||
    (Char.ofNat 65 ≤ c && c ≤ Char.ofNat 70)

/-- Hexadecimal value of a hex-digit list (used for IPv6 groups). -/
def hexVal (l : List Char) : Nat :=
  l.foldl
    (fun a c =>
      a * 16 +
        (if c.isDigit then c.toNat - 48
         else if Char.ofNat 97 ≤ c then c.toNat - 87
         else c.toNat - 55))
    0

/-- Split a character list on a separator character; mirrors how Go's
parseIPv4 consumes dot-separated fields. -/
def splitOnChar (sep : Char) : List Char → List (List Char)
  | [] => [[]]
  | x :: xs =>
    let r := splitOnChar sep xs
    if x = sep then [] :: r
    else
      match r with
      | [] => [[x]]
      | y :: ys => (x :: y) :: ys

/-- One dotted-decimal IPv4 field: nonempty, all digits, value at most
255 (Go's dtoi plus the 0xFF bound in parseIPv4). -/
def parseIPv4Field (l : List Char) : Option Nat :=
  if l ≠ [] ∧ l.all Char.isDigit ∧ decVal l ≤ 255 then some (decVal l)
  else none

/-- The 4-in-6 representation Go's parseIPv4 produces. -/
def v4InV6 (a b c d : Nat) : IPBytes :=
  [0, 0, 0, 0, 0, 0, 0, 0, 0, 0, 255, 255, a, b, c, d]

/-- Go's parseIPv4: exactly four dot-separated decimal fields. -/
def parseIPv4Chars (l : List Char) : Option IPBytes :=
  match (splitOnChar (Char.ofNat 46) l).map parseIPv4Field with
  | [some a, some b, some c, some d] => some (v4InV6 a b c d)
  | _ => none

/-- One IPv6 group: nonempty hex digits, value at most 0xFFFF. -/
def parseIPv6Group (l : List Char) : Option Nat :=
  if l ≠ [] ∧ l.all isHexDigit ∧ hexVal l ≤ 65535 then some (hexVal l)
  else none

/-- Big-endian bytes of a 16-bit group. -/
def groupBytes (g : Nat) : List Nat := [g / 256, g % 256]

/-- Split on single colons; an empty input yields no groups (used for the
two sides of a "::"). -/
def splitColon (l : List Char) : List (List Char) :=
  match l with
  | [] => []
  | _ => splitOnChar (Char.ofNat 58) l

/-- Split at the first "::", if any; mirrors the ellipsis handling in
Go's parseIPv6 (a second "::" then surfaces as an empty group on the
right and fails, as in Go). -/
def splitDC : List Char → Option (List Char × List Char)
  | a :: b :: rest =>
    if a = Char.ofNat 58 ∧ b = Char.ofNat 58 then some ([], rest)
    else
      match splitDC (b :: rest) with
      | some (l, r) => some (a :: l, r)
      | none => none
  | _ => none

/-- Parse a colon-separated group list to bytes; an embedded dotted
IPv4 address is allowed only as the final group pair, as in Go. -/
def parseGroups : List (List Char) → Option (List Nat)
  | [] => some []
  | [last] =>
    if last.contains (Char.ofNat 46) then
      match parseIPv4Chars last with
      | some bytes16 => some (bytes16.drop 12)
      | none => none
    else (parseIPv6Group last).map groupBytes
  | g :: rest =>
    match parseIPv6Group g, parseGroups rest with
    | some n, some bs => some (groupBytes n ++ bs)
    | _, _ => none

/-- Go's parseIPv6: either eight groups, or two group runs joined by one
"::" expanding to at least one zero group. -/
def parseIPv6Chars (l : List Char) : Option IPBytes :=
  match splitDC l with
  | none =>
    match parseGroups (splitColon l) with
    | some bs => if bs.length = 16 then some bs else none
    | none => none
  | some (left, right) =>
    if left.contains (Char.ofNat 46) then none
    else
      match parseGroups (splitColon left), parseGroups (splitColon right) with
      | some lb, some rb =>
        if lb.length + rb.length ≤ 14 then
          some (lb ++ List.replicate (16 - (lb.length + rb.length)) 0 ++ rb)
        else none
      | _, _ => none

/-- Go's ParseIP dispatches on the first '.' or ':' it sees. -/
def classifyIP : List Char → Option Bool
  | [] => none
  | c :: rest =>
    if c = Char.ofNat 46 then some true
    else if c = Char.ofNat 58 then some false
    else classifyIP rest

/-- Model of Go's net.ParseIP. -/
def parseIP (s : String) : Option IPBytes :=
  match classifyIP s.data with
  | some true => parseIPv4Chars s.data
  | some false => parseIPv6Chars s.data
  | none => none

/-- The IPv6 loopback address ::1. -/
def IPv6loopback : IPBytes := [0, 0, 0, 0, 0, 0, 0, 0, 0, 0, 0, 0, 0, 0, 0, 1]

/-- Whether a 16-byte address is in the 4-in-6 range (Go's To4). -/
def isV4 (ip : IPBytes) : Bool :=
  ip.take 12 == [0, 0, 0, 0, 0, 0, 0, 0, 0, 0, 255, 255]

/-- Go's IP.IsLoopback on a parsed (hence 16-byte) address. -/
def isLoopback (ip : IPBytes) : Bool :=
  if isV4 ip then ip.getD 12 0 == 127 else ip == IPv6loopback

/-- IsLoopback as called in matchHost, where the receiver may be the nil
result of a failed parse: Go's method on a nil IP returns false. -/
def isLoopbackOpt : Option IPBytes → Bool
  | none => false
  | some ip => isLoopback ip

/-! ### Nodes and host matching (part_000 lines 71-109) -/

/-- Node struct: creds and ports of some cluster node. -/
structure Node where
  Host : String
  User : String
  Password : String
  Ports : List Int
  Local : Bool
deriving DecidableEq

/-- matchHost from the source: loopback node host always matches;
a loopback query host matches the local node; two parsed addresses
compare as addresses; otherwise the host strings compare textually. -/
def matchHost (n : Node) (host : String) : Bool :=
  let nodeHostIP := parseIP n.Host
  let hostIP := parseIP host
  if isLoopbackOpt nodeHostIP then true
  else if isLoopbackOpt hostIP && n.Local then true
  else
    match nodeHostIP, hostIP with
    | some a, some b => b == a
    | _, _ => host == n.Host

/-- getMemcachedCreds: the node's user and password when the host
matches and the port is among the node's ports, empty strings otherwise. -/
def getMemcachedCreds (n : Node) (host : String) (port : Int) : String × String :=
  if !matchHost n host then ("", "")
  else if n.Ports.contains port then (n.User, n.Password)
  else ("", "")

/-! ### TLS configuration (part_000 lines 43-59, 669-710) -/

/-- TLSConfig: tls settings used by cbauth clients. -/
structure TLSConfig where
  MinVersion : Nat
  CipherSuites : List Nat
  CipherSuiteNames : List String
  CipherSuiteOpenSSLNames : List String
  PreferServerCipherSuites : Bool
deriving DecidableEq

/-- The wire shape of the TLS settings in a pushed Cache message. -/
structure tlsConfigImport where
  MinTLSVersion : String
  Ciphers : List Nat
  CipherNames : List String
  CipherOpenSSLNames : List String
  CipherOrder : Bool
deriving DecidableEq

/-- ASCII lower-casing of a character (strings.ToLower restricted to the
ASCII version strings this code compares against). -/
def charToLower (c : Char) : Char :=
  if Char.ofNat 65 ≤ c ∧ c ≤ Char.ofNat 90 then Char.ofNat (c.toNat + 32) else c

/-- ASCII lower-casing of a string. -/
def strToLower (s : String) : String := ⟨s.data.map charToLower⟩

/-- Numeric values of crypto/tls version constants. -/
def VersionTLS10 : Nat := 769

/-- VersionTLS11 constant. -/
def VersionTLS11 : Nat := 770

/-- VersionTLS12 constant. -/
def VersionTLS12 : Nat := 771

/-- minTLSVersion from the source. -/
def minTLSVersion (str : String) : Nat :=
  let s := strToLower str
  if s = "tlsv1" then VersionTLS10
  else if s = "tlsv1.1" then VersionTLS11
  else if s = "tlsv1.2" then VersionTLS12
  else VersionTLS10

/-- importTLSConfig: the Go code copies each slice with append; in this
value model a copy is the list itself. -/
def importTLSConfig (cfg : tlsConfigImport) : TLSConfig :=
  { MinVersion := minTLSVersion cfg.MinTLSVersion
    CipherSuites := cfg.Ciphers
    CipherSuiteNames := cfg.CipherNames
    CipherSuiteOpenSSLNames := cfg.CipherOpenSSLNames
    PreferServerCipherSuites := cfg.CipherOrder }

/-- crypto/tls ClientAuthType values returned by getAuthType. -/
inductive ClientAuthType where
  | NoClientCert
  | VerifyClientCertIfGiven
  | RequireAndVerifyClientCert
deriving DecidableEq

/-- getAuthType from the source. -/
def getAuthType (state : String) : ClientAuthType :=
  if state = "enable" then ClientAuthType.VerifyClientCertIfGiven
  else if state = "mandatory" then ClientAuthType.RequireAndVerifyClientCert
  else ClientAuthType.NoClientCert

/-! ### The configuration snapshot (part_000 lines 111-139, 278-299) -/

/-- credsDB: the immutable snapshot the Svc serves reads from. -/
structure credsDB where
  nodes : List Node
  authCheckURL : String
  permissionCheckURL : String
  specialUser : String
  specialPassword : String
  permissionsVersion : String
  authVersion : String
  certVersion : Int
  extractUserFromCertURL : String
  clientCertAuthState : String
  clientCertAuthVersion : String
  tlsConfig : TLSConfig
deriving DecidableEq

/-- Cache: the message into which the revrpc json is unmarshalled. -/
structure Cache where
  Nodes : List Node
  AuthCheckURL : String
  PermissionCheckURL : String
  SpecialUser : String
  PermissionsVersion : String
  AuthVersion : String
  CertVersion : Int
  ExtractUserFromCertURL : String
  ClientCertAuthState : String
  ClientCertAuthVersion : String
  TLSConfig : tlsConfigImport
deriving DecidableEq

/-- cacheToCredsDB: builds the snapshot and derives the special password
by scanning for the first node flagged local (the Go loop with break);
with no local node the zero value "" stands. -/
def cacheToCredsDB (c : Cache) : credsDB :=
  { nodes := c.Nodes
    authCheckURL := c.AuthCheckURL
    permissionCheckURL := c.PermissionCheckURL
    specialUser := c.SpecialUser
    specialPassword :=
      match c.Nodes.find? (fun node => node.Local) with
      | some node => node.Password
      | none => ""
    permissionsVersion := c.PermissionsVersion
    authVersion := c.AuthVersion
    certVersion := c.CertVersion
    extractUserFromCertURL := c.ExtractUserFromCertURL
    clientCertAuthState := c.ClientCertAuthState
    clientCertAuthVersion := c.ClientCertAuthVersion
    tlsConfig := importTLSConfig c.TLSConfig }

/-! ### Errors (part_000 lines 61-69 and the error paths) -/

/-- The Go error values this package creates or receives. Arbitrary
errors handed in from outside (for example the DBStaleError passed to
ResetSvc) are modelled by the external constructor. -/
inductive GoError where
  | errNoAuth
  | errCallbackAlreadyRegistered
  | errUserNotFound
  | statusError (status : String)
  | unexpectedReturnCode (code : Nat)
  | transport (msg : String)
  | jsonError (msg : String)
  | external (tag : String)
deriving DecidableEq

/-! ### LRU cache

The LRUCache implementation lives elsewhere in the repository (only its
callers are under src), so it is modelled from the spec. -/

/-- Modelled from the spec: the LRUCache source is not under src; spec
section 4.1 requires a fixed-capacity key-value cache where get returns
(value, found) and refreshes recency on a hit, and put evicts the single
least-recently-used entry when at capacity. Entries are kept
most-recently-used first. -/
structure LRUCache (κ ν : Type) where
  capacity : Nat
  entries : List (κ × ν)
deriving DecidableEq

/-- Modelled from the spec: get returns the value stored under the key,
moving the entry to the most-recently-used position. -/
def LRUCache.get {κ ν : Type} [DecidableEq κ] (c : LRUCache κ ν) (k : κ) :
    Option ν × LRUCache κ ν :=
  match c.entries.find? (fun e => e.1 == k) with
  | some e => (some e.2, ⟨c.capacity, e :: c.entries.filter (fun x => !(x.1 == k))⟩)
  | none => (none, c)

/-- Modelled from the spec: set stores the value under the key at the
most-recently-used position and drops the least-recently-used entry when
the capacity is exceeded. -/
def LRUCache.set {κ ν : Type} [DecidableEq κ] (c : LRUCache κ ν) (k : κ) (v : ν) :
    LRUCache κ ν :=
  ⟨c.capacity, ((k, v) :: c.entries.filter (fun x => !(x.1 == k))).take c.capacity⟩

/-! ### Cache keys and identities (part_000 lines 519-524, 581-590, 712-715) -/

/-- Permission-cache key. -/
structure userPermission where
  version : String
  user : String
  domain : String
  permission : String
deriving DecidableEq

/-- Auth-cache key. -/
structure userPassword where
  version : String
  user : String
  password : String
deriving DecidableEq

/-- Cached identity. -/
structure userIdentity where
  user : String
  domain : String
deriving DecidableEq

/-- Client-certificate-cache key (hash of the certificate plus the
client-cert-auth version). -/
structure clienCertHash where
  hash : List Nat
  version : String
deriving DecidableEq

/-- CredsImpl: the identity a verification operation yields. The Go
struct also carries back-pointers db and s used only by later calls;
they are omitted from the value. -/
structure CredsImpl where
  name : String
  domain : String
  password : String
deriving DecidableEq

/-- Domain method of CredsImpl: admin and ro_admin display as builtin. -/
def CredsImpl.Domain (c : CredsImpl) : String :=
  if c.domain = "admin" ∨ c.domain = "ro_admin" then "builtin" else c.domain

/-! ### The TLS notifier (part_000 lines 184-236) -/

/-- tlsNotifier state: at most one registered callback and a single-slot
pending-notification channel (the buffered channel of size one). The
delivery loop itself is a concurrent background task and is outside this
sequential model. -/
structure TLSNotifier (Cb : Type) where
  callback : Option Cb
  pending : Bool
deriving DecidableEq

/-- notifyTLSChangeLocked: non-blocking coalesced enqueue into the
single-slot channel. -/
def notifyTLSChangeLocked {Cb : Type} (n : TLSNotifier Cb) : TLSNotifier Cb :=
  { n with pending := true }

/-- notifyTLSChange takes the lock and enqueues. -/
def notifyTLSChange {Cb : Type} (n : TLSNotifier Cb) : TLSNotifier Cb :=
  notifyTLSChangeLocked n

/-- registerCallback: fails if a callback is already registered,
otherwise stores the callback and enqueues an immediate notification. -/
def registerCallback {Cb : Type} (n : TLSNotifier Cb) (cb : Cb) :
    Option GoError × TLSNotifier Cb :=
  match n.callback with
  | some _ => (some GoError.errCallbackAlreadyRegistered, n)
  | none => (none, notifyTLSChangeLocked { n with callback := some cb })

/-! ### Svc state (part_000 lines 261-343, 401-427) -/

/-- Svc: the cbauth service state. The three caches are created lazily
by sync.Once in Go; in this model they are present from the start with
the capacities the Go code passes to NewLRUCache (1024, 256, 256),
which is observationally the same in a sequential execution. Cb is the
type of TLS refresh callbacks. -/
structure Svc (Cb : Type) where
  db : Option credsDB
  staleErr : GoError
  freshChan : Bool
  upCache : LRUCache userPermission Bool
  authCache : LRUCache userPassword userIdentity
  clientCertCache : LRUCache clienCertHash userIdentity
  tlsNotifier : TLSNotifier Cb
deriving DecidableEq

/-- fetchDB: returns the current snapshot. The Go code may block on
freshChan when the snapshot is nil, but releasing that wait does not by
itself change s.db, so in this sequential model the read returns the
current db in every case. -/
def fetchDB {Cb : Type} (s : Svc Cb) : Option credsDB := s.db

/-- staleError: the recorded stale error. The Go nil-panic branch is
unreachable because construction and ResetSvc both require a non-nil
error, which the total GoError field encodes. -/
def staleError {Cb : Type} (s : Svc Cb) : GoError := s.staleErr

/-- updateDBLocked: installs the (possibly nil) snapshot and releases
and clears the wait handle. -/
def updateDBLocked {Cb : Type} (s : Svc Cb) (db : Option credsDB) : Svc Cb :=
  { s with db := db, freshChan := false }

/-- needRefreshTLS: true when there is no previous snapshot or the cert
version, the client-cert-auth state or the TLS config changed
(reflect.DeepEqual on slices built by importTLSConfig is element-wise
list equality here). -/
def needRefreshTLS {Cb : Type} (s : Svc Cb) (db : credsDB) : Bool :=
  match s.db with
  | none => true
  | some old =>
    decide (old.certVersion ≠ db.certVersion) ||
    decide (old.clientCertAuthState ≠ db.clientCertAuthState) ||
    decide (old.tlsConfig ≠ db.tlsConfig)

/-- Result of UpdateDB: the new state plus whether the TLS notifier was
triggered. -/
structure UpdateResult (Cb : Type) where
  svc : Svc Cb
  tlsUpdated : Bool
deriving DecidableEq

/-- UpdateDB: converts the pushed Cache to a snapshot, decides whether
TLS-relevant fields changed, installs the snapshot, and notifies the
TLS notifier when they did (the *outparam = true write is dropped). -/
def UpdateDB {Cb : Type} (s : Svc Cb) (c : Cache) : UpdateResult Cb :=
  let db := cacheToCredsDB c
  let tlsUpdated := needRefreshTLS s db
  let s2 := updateDBLocked s (some db)
  ⟨if tlsUpdated then { s2 with tlsNotifier := notifyTLSChange s2.tlsNotifier } else s2,
   tlsUpdated⟩

/-- ResetSvc: requires a non-nil stale error (none models the Go panic
and is rejected), records it and clears the snapshot. -/
def ResetSvc {Cb : Type} (staleErr : Option GoError) (s : Svc Cb) : Option (Svc Cb) :=
  match staleErr with
  | none => none
  | some e => some (updateDBLocked { s with staleErr := e } none)

/-! ### Special credentials (part_000 lines 170-172) -/

/-- verifySpecialCreds: nonempty user starting with the '@' byte whose
password equals the snapshot's derived special password. The byte test
user[0] == '@' is the head-character test, since no UTF-8 continuation
byte equals 0x40. -/
def verifySpecialCreds (db : credsDB) (user password : String) : Bool :=
  decide (0 < user.length) &&
  decide (user.data.headD (Char.ofNat 32) = Char.ofNat 64) &&
  decide (password = db.specialPassword)

/-! ### The oracled HTTP boundary (part_000 lines 438-517)

Every outbound call is described by a request record and answered by an
HTTPResult supplied to the operation; the operation returns the list of
requests it issued, so "no outbound call" is an empty list. -/

instance {ε α : Type} [DecidableEq ε] [DecidableEq α] : DecidableEq (Except ε α) :=
  fun a b =>
    match a, b with
    | Except.error e1, Except.error e2 =>
      if h : e1 = e2 then isTrue (by rw [h]) else isFalse (by intro hh; cases hh; exact h rfl)
    | Except.ok v1, Except.ok v2 =>
      if h : v1 = v2 then isTrue (by rw [h]) else isFalse (by intro hh; cases hh; exact h rfl)
    | Except.error _, Except.ok _ => isFalse (by intro hh; cases hh)
    | Except.ok _, Except.error _ => isFalse (by intro hh; cases hh)

/-- Outcome of json.Unmarshal on a 200 body. -/
inductive BodyParse where
  | ok (user domain : String)
  | readFailed (e : GoError)
  | malformed (e : GoError)
deriving DecidableEq

/-- What the authority answered: a transport error from client.Do, or a
status code with its status line and body. -/
inductive HTTPResult where
  | transportError (e : GoError)
  | response (statusCode : Nat) (status : String) (body : BodyParse)
deriving DecidableEq

/-- executeReqAndGetCreds: 401 is an authentication failure, anything
other than 200 is a status error, a 200 body parses to an identity. The
db and s arguments of the Go function only seed back-pointers in the
returned CredsImpl and are dropped. -/
def executeReqAndGetCreds (resp : HTTPResult) : Except GoError CredsImpl :=
  match resp with
  | HTTPResult.transportError e => Except.error e
  | HTTPResult.response code status body =>
    if code = 401 then Except.error GoError.errNoAuth
    else if code ≠ 200 then Except.error (GoError.statusError status)
    else
      match body with
      | BodyParse.readFailed e => Except.error e
      | BodyParse.malformed e => Except.error e
      | BodyParse.ok user domain =>
        Except.ok { name := user, domain := domain, password := "" }

/-- HTTP headers as a name-value list. -/
abbrev Header := List (String × String)

/-- Header.Get: first value stored under the name, or empty. -/
def headerGet (h : Header) (name : String) : String :=
  match h.find? (fun kv => kv.1 == name) with
  | some kv => kv.2
  | none => ""

/-- Header.Set: replace the value stored under the name. -/
def headerSet (h : Header) (name val : String) : Header :=
  (name, val) :: h.filter (fun kv => !(kv.1 == name))

/-- copyHeader from the source: copy a header when the source has a
nonempty value for it. -/
def copyHeader (name : String) (src dst : Header) : Header :=
  if headerGet src name ≠ "" then headerSet dst name (headerGet src name) else dst

/-- The ns-server-ui token header name. -/
def tokenHeader : String := "ns-server-ui"

/-- SetBasicAuth header value; the base64 step is modelled as the
identity on "user:password" (like base64 it identifies exactly the same
pairs, since ':' may not occur in the user). -/
def basicAuthHeaderValue (user password : String) : String :=
  "Basic " ++ user ++ ":" ++ password

/-- An outbound request to the auth-check endpoint. -/
structure AuthCheckReq where
  url : String
  headers : Header
deriving DecidableEq

/-- VerifyOnServer: authenticates the headers against the authority's
auth-check endpoint, copying the four relevant headers onto the
outbound request. -/
def VerifyOnServer {Cb : Type} (s : Svc Cb) (reqHeaders : Header) (resp : HTTPResult) :
    Except GoError CredsImpl × List AuthCheckReq :=
  match fetchDB s with
  | none => (Except.error (staleError s), [])
  | some db =>
    if db.authCheckURL = "" then (Except.error GoError.errNoAuth, [])
    else
      let hdrs :=
        copyHeader "Authorization" reqHeaders
          (copyHeader "Cookie" reqHeaders
            (copyHeader "ns-server-auth-token" reqHeaders
              (copyHeader tokenHeader reqHeaders [])))
      (executeReqAndGetCreds resp, [⟨db.authCheckURL, hdrs⟩])

/-- verifyPasswordOnServer: VerifyOnServer on a fresh request carrying
only basic auth. -/
def verifyPasswordOnServer {Cb : Type} (s : Svc Cb) (user password : String)
    (resp : HTTPResult) : Except GoError CredsImpl × List AuthCheckReq :=
  VerifyOnServer s (headerSet [] "Authorization" (basicAuthHeaderValue user password)) resp

/-- Result of VerifyPassword: the verdict, the updated service state,
and the outbound requests issued. -/
structure VPResult (Cb : Type) where
  creds : Except GoError CredsImpl
  svc : Svc Cb
  calls : List AuthCheckReq
deriving DecidableEq

/-- VerifyPassword from the source: special-credential bypass, then the
auth cache keyed by (authVersion, user, password), then the outbound
check whose result is cached only for the admin and local domains. -/
def VerifyPassword {Cb : Type} (s : Svc Cb) (user password : String)
    (resp : HTTPResult) : VPResult Cb :=
  match fetchDB s with
  | none => ⟨Except.error (staleError s), s, []⟩
  | some db =>
    if verifySpecialCreds db user password then
      ⟨Except.ok { name := user, domain := "admin", password := password }, s, []⟩
    else
      let key : userPassword := ⟨db.authVersion, user, password⟩
      match s.authCache.get key with
      | (some id, cache2) =>
        ⟨Except.ok { name := id.user, domain := id.domain, password := password },
         { s with authCache := cache2 }, []⟩
      | (none, _) =>
        match verifyPasswordOnServer s user password resp with
        | (Except.error e, calls) => ⟨Except.error e, s, calls⟩
        | (Except.ok rv, calls) =>
          if rv.domain = "admin" ∨ rv.domain = "local" then
            ⟨Except.ok rv,
             { s with authCache := s.authCache.set key ⟨rv.name, rv.domain⟩ }, calls⟩
          else ⟨Except.ok rv, s, calls⟩

/-! ### Permission checks (part_000 lines 526-579) -/

/-- An outbound request to the permission-check endpoint: basic auth
credentials plus the query parameters the Go code url-encodes. -/
structure PermCheckReq where
  url : String
  authUser : String
  authPassword : String
  user : String
  domain : String
  permission : String
deriving DecidableEq

/-- checkPermissionOnServer: authenticated with the snapshot's special
user and password; 200 means allowed, 401 means denied, anything else
is an error. -/
def checkPermissionOnServer (db : credsDB) (user domain permission : String)
    (resp : HTTPResult) : Except GoError Bool × List PermCheckReq :=
  let req : PermCheckReq :=
    ⟨db.permissionCheckURL, db.specialUser, db.specialPassword, user, domain, permission⟩
  match resp with
  | HTTPResult.transportError e => (Except.error e, [req])
  | HTTPResult.response code _ _ =>
    if code = 200 then (Except.ok true, [req])
    else if code = 401 then (Except.ok false, [req])
    else (Except.error (GoError.unexpectedReturnCode code), [req])

/-- Result of checkPermission. -/
structure PermResult (Cb : Type) where
  allowed : Except GoError Bool
  svc : Svc Cb
  calls : List PermCheckReq
deriving DecidableEq

/-- checkPermission from the source: permission cache keyed by
(permissionsVersion, user, domain, permission); a miss performs the
outbound check and caches the verdict unconditionally. -/
def checkPermission {Cb : Type} (s : Svc Cb) (user domain permission : String)
    (resp : HTTPResult) : PermResult Cb :=
  match fetchDB s with
  | none => ⟨Except.error (staleError s), s, []⟩
  | some db =>
    let key : userPermission := ⟨db.permissionsVersion, user, domain, permission⟩
    match s.upCache.get key with
    | (some allowed, cache2) => ⟨Except.ok allowed, { s with upCache := cache2 }, []⟩
    | (none, _) =>
      match checkPermissionOnServer db user domain permission resp with
      | (Except.error e, calls) => ⟨Except.error e, s, calls⟩
      | (Except.ok allowedOnServer, calls) =>
        ⟨Except.ok allowedOnServer,
         { s with upCache := s.upCache.set key allowedOnServer }, calls⟩

/-! ### Service credential lookup (part_000 lines 636-652) -/

/-- The loop body of GetCreds: Go's named return values memcachedUser,
user and pwd are reassigned on every iteration, so the final pwd is
whatever the last call to getMemcachedCreds produced. -/
def getCredsLoop (db : credsDB) (host : String) (port : Int) :
    List Node → String × String × String
  | [] => ("", "", "")
  | n :: rest =>
    let mp := getMemcachedCreds n host port
    if mp.1 ≠ "" then (mp.1, db.specialUser, mp.2)
    else
      match rest with
      | [] => ("", "", mp.2)
      | _ :: _ => getCredsLoop db host port rest

/-- GetCreds: service password for the host and port together with the
special user; empty strings with no error for an unknown service. -/
def GetCreds {Cb : Type} (s : Svc Cb) (host : String) (port : Int) :
    Except GoError (String × String × String) :=
  match fetchDB s with
  | none => Except.error (staleError s)
  | some db => Except.ok (getCredsLoop db host port db.nodes)

/-! ### TLS accessors (part_000 lines 659-687) -/

/-- GetClientCertAuthType. -/
def GetClientCertAuthType {Cb : Type} (s : Svc Cb) : Except GoError ClientAuthType :=
  match fetchDB s with
  | none => Except.error (staleError s)
  | some db => Except.ok (getAuthType db.clientCertAuthState)

/-- GetTLSConfig. -/
def GetTLSConfig {Cb : Type} (s : Svc Cb) : Except GoError TLSConfig :=
  match fetchDB s with
  | none => Except.error (staleError s)
  | some db => Except.ok db.tlsConfig

/-! ### Certificate identity extraction (part_000 lines 717-788) -/

/-- An x509 certificate: only its raw DER bytes matter here. -/
structure Certificate where
  Raw : List Nat
deriving DecidableEq

/-- The TLS connection state of an inbound request. -/
structure TLSConnState where
  PeerCertificates : List Certificate
deriving DecidableEq

/-- An inbound http request, reduced to the field MaybeGetCredsFromCert
inspects. -/
structure Request where
  TLS : Option TLSConnState
deriving DecidableEq

/-- An outbound request to the certificate extraction endpoint. -/
structure CertExtractReq where
  url : String
  body : List Nat
  authUser : String
  authPassword : String
deriving DecidableEq

/-- getUserIdentityFromCert: refuses with ErrNoAuth when the snapshot
has no auth-check URL, otherwise posts the raw certificate to the
extraction endpoint authenticated with the special credentials. -/
def getUserIdentityFromCert (cert : Certificate) (db : credsDB) (resp : HTTPResult) :
    Except GoError CredsImpl × List CertExtractReq :=
  if db.authCheckURL = "" then (Except.error GoError.errNoAuth, [])
  else
    (executeReqAndGetCreds resp,
     [⟨db.extractUserFromCertURL, cert.Raw, db.specialUser, db.specialPassword⟩])

/-- Outcome of a Go call that can also panic at runtime. -/
inductive GoOutcome (α : Type) where
  | ok (a : α)
  | err (e : GoError)
  | panicked (msg : String)
deriving DecidableEq

/-- Result of MaybeGetCredsFromCert. -/
structure CertResult (Cb : Type) where
  outcome : GoOutcome (Option CredsImpl)
  svc : Svc Cb
  calls : List CertExtractReq
deriving DecidableEq

/-- MaybeGetCredsFromCert from the source. md5f is the MD5 digest used
for the cache key (kept abstract: only key equality matters). The
final else branch indexes PeerCertificates[0]; with an empty peer list
that is a Go runtime panic, reached for example when the state is
"mandatory" and no certificate was presented. -/
def MaybeGetCredsFromCert {Cb : Type} (md5f : List Nat → List Nat) (s : Svc Cb)
    (req : Request) (resp : HTTPResult) : CertResult Cb :=
  match fetchDB s with
  | none => ⟨GoOutcome.err (staleError s), s, []⟩
  | some db =>
    match req.TLS with
    | none => ⟨GoOutcome.ok none, s, []⟩
    | some conn =>
      let state := db.clientCertAuthState
      if state = "disable" ∨ state = "" then ⟨GoOutcome.ok none, s, []⟩
      else if state = "enable" ∧ conn.PeerCertificates.length = 0 then
        ⟨GoOutcome.ok none, s, []⟩
      else
        match conn.PeerCertificates with
        | [] => ⟨GoOutcome.panicked "runtime error: index out of range", s, []⟩
        | cert :: _ =>
          let key : clienCertHash := ⟨md5f cert.Raw, db.clientCertAuthVersion⟩
          match s.clientCertCache.get key with
          | (some ui, cache2) =>
            ⟨GoOutcome.ok (some { name := ui.user, domain := ui.domain, password := "" }),
             { s with clientCertCache := cache2 }, []⟩
          | (none, _) =>
            match getUserIdentityFromCert cert db resp with
            | (Except.ok creds, calls) =>
              ⟨GoOutcome.ok (some creds),
               { s with clientCertCache := s.clientCertCache.set key ⟨creds.name, creds.domain⟩ },
               calls⟩
            | (Except.error _, calls) => ⟨GoOutcome.err GoError.errUserNotFound, s, calls⟩

/-- RegisterTLSRefreshCallback delegates to the notifier. -/
def RegisterTLSRefreshCallback {Cb : Type} (s : Svc Cb) (cb : Cb) :
    Option GoError × Svc Cb :=
  let r := registerCallback s.tlsNotifier cb
  (r.1, { s with tlsNotifier := r.2 })

/-! ### Concrete fixtures

These mirror the shapes used by the repository's own tests (nodes
beta.local and a local 127.0.0.1 node, special user "@component"). -/

/-- The zero TLSConfig. -/
def emptyTLS : TLSConfig := ⟨VersionTLS10, [], [], [], false⟩

/-- The beta.local node of the TestServicePwd fixture. -/
def betaNode : Node := ⟨"beta.local", "_admin", "foobar", [9000, 12000], false⟩

/-- A node flagged local whose password becomes the special password. -/
def localNode : Node := ⟨"127.0.0.1", "_admin", "barfoo", [9001], true⟩

/-- A pushed TLS configuration. -/
def sampleTLSImport : tlsConfigImport :=
  ⟨"tlsv1.2", [4865], ["TLS_AES_128_GCM_SHA256"], ["AES128-GCM-SHA256"], true⟩

/-- A pushed configuration with a local node. -/
def sampleCache : Cache :=
  { Nodes := [betaNode, localNode]
    AuthCheckURL := "http://127.0.0.1:9000/_auth"
    PermissionCheckURL := "http://127.0.0.1:9000/_permissions"
    SpecialUser := "@component"
    PermissionsVersion := "v1"
    AuthVersion := "a1"
    CertVersion := 1
    ExtractUserFromCertURL := "http://127.0.0.1:9000/_extract"
    ClientCertAuthState := "enable"
    ClientCertAuthVersion := "cc1"
    TLSConfig := sampleTLSImport }

/-- sampleCache with only the permissions version bumped: all
TLS-relevant fields unchanged. -/
def sampleCache2 : Cache := { sampleCache with PermissionsVersion := "v2" }

/-- sampleCache without any local node. -/
def noLocalCache : Cache := { sampleCache with Nodes := [betaNode] }

/-- The snapshot derived from sampleCache (special password barfoo). -/
def sampleDB : credsDB := cacheToCredsDB sampleCache

/-- A Svc holding a given snapshot, with empty caches at the Go
capacities and no registered TLS callback. -/
def mkSvc (db : Option credsDB) : Svc Unit :=
  { db := db
    staleErr := GoError.external "DBStaleError"
    freshChan := false
    upCache := ⟨1024, []⟩
    authCache := ⟨256, []⟩
    clientCertCache := ⟨256, []⟩
    tlsNotifier := ⟨none, false⟩ }

/-- A fresh Svc holding sampleDB. -/
def sampleSvc : Svc Unit := mkSvc (some sampleDB)

/-- A Svc with no snapshot (as before the first update). -/
def staleSvc : Svc Unit := mkSvc none

/-- A snapshot for the GetCreds scenario: only the beta.local node. -/
def c3DB : credsDB :=
  { nodes := [betaNode]
    authCheckURL := "http://127.0.0.1:9000/_auth"
    permissionCheckURL := "http://127.0.0.1:9000/_permissions"
    specialUser := "@"
    specialPassword := ""
    permissionsVersion := "v1"
    authVersion := "a1"
    certVersion := 1
    extractUserFromCertURL := "http://127.0.0.1:9000/_extract"
    clientCertAuthState := "enable"
    clientCertAuthVersion := "cc1"
    tlsConfig := emptyTLS }

/-- Svc for the GetCreds scenario. -/
def c3Svc : Svc Unit := mkSvc (some c3DB)

/-- A snapshot with client-cert auth mandatory. -/
def mandDB : credsDB := { c3DB with clientCertAuthState := "mandatory" }

/-- Svc with mandatory client-cert auth. -/
def svcMandatory : Svc Unit := mkSvc (some mandDB)

/-- A snapshot with client-cert auth disabled. -/
def disDB : credsDB := { c3DB with clientCertAuthState := "disable" }

/-- Svc with disabled client-cert auth. -/
def svcDisabled : Svc Unit := mkSvc (some disDB)

/-- A snapshot whose auth-check URL is empty. -/
def noURLDB : credsDB := { c3DB with authCheckURL := "", clientCertAuthState := "mandatory" }

/-- Svc whose snapshot has no auth-check URL. -/
def svcNoURL : Svc Unit := mkSvc (some noURLDB)

/-- An http (non-TLS) request. -/
def reqNoTLS : Request := ⟨none⟩

/-- A TLS request presenting no peer certificate. -/
def reqNoPeerCert : Request := ⟨some ⟨[]⟩⟩

/-- A TLS request presenting one certificate. -/
def reqWithCert : Request := ⟨some ⟨[⟨[1, 2, 3]⟩]⟩⟩

/-- A successful authority answer. -/
def sampleResp : HTTPResult :=
  HTTPResult.response 200 "200 OK" (BodyParse.ok "Administrator" "admin")

/-- The sample Svc after a reset with a disconnect error. -/
def resetSampleSvc : Svc Unit :=
  { sampleSvc with staleErr := GoError.external "disconnected", db := none, freshChan := false }

/-! ### Helper lemmas -/

/-- A cache miss leaves the cache untouched. -/
theorem lru_get_of_miss {κ ν : Type} [DecidableEq κ] (c : LRUCache κ ν) (k : κ)
    (h : (c.get k).1 = none) : c.get k = (none, c) := by
  unfold LRUCache.get at h ⊢
  cases hf : c.entries.find? (fun e => e.1 == k) with
  | none => simp [hf]
  | some e => rw [hf] at h; simp at h

/-- The special-credential fast path of VerifyPassword. -/
theorem verifyPassword_special {Cb : Type} (s : Svc Cb) (db : credsDB)
    (user password : String) (resp : HTTPResult)
    (hdb : s.db = some db)
    (hat : user.data.headD (Char.ofNat 32) = Char.ofNat 64)
    (hpw : password = db.specialPassword) :
    VerifyPassword s user password resp =
      ⟨Except.ok { name := user, domain := "admin", password := password }, s, []⟩ := by
  have hdata : user.data ≠ [] := by
    intro h
    rw [h] at hat
    exact absurd hat (by decide)
  have hlen : 0 < user.length := List.length_pos.mpr hdata
  have hat2 : user.data.head?.getD (Char.ofNat 32) = Char.ofNat 64 := by
    simpa using hat
  have hspec : verifySpecialCreds db user password = true := by
    simp [verifySpecialCreds, hat2, hpw, hlen]
  have hf : fetchDB s = some db := hdb
  simp [VerifyPassword, hf, hspec]

/-- Positive getMemcachedCreds: a nonempty user part means the host
matched, the port is configured, and the node's user and password were
returned. -/
theorem getMemcachedCreds_pos (n : Node) (host : String) (port : Int)
    (h : (getMemcachedCreds n host port).1 ≠ "") :
    getMemcachedCreds n host port = (n.User, n.Password) ∧
      matchHost n host = true ∧ port ∈ n.Ports := by
  by_cases hm : matchHost n host = true
  · by_cases hp : port ∈ n.Ports
    · exact ⟨by simp [getMemcachedCreds, hm, hp], hm, hp⟩
    · exact absurd (by simp [getMemcachedCreds, hm, hp]) h
  · have hm2 : matchHost n host = false := by simpa using hm
    exact absurd (by simp [getMemcachedCreds, hm2]) h

/-- The matching rule of matchHost as the spec phrases it: node host
loopback, or query host loopback against the local node, or equal
parsed addresses, or (neither parsing) textual equality. -/
theorem matchHost_iff (n : Node) (host : String) :
    matchHost n host = true ↔
      (isLoopbackOpt (parseIP n.Host) = true ∨
       (isLoopbackOpt (parseIP host) = true ∧ n.Local = true) ∨
       (∃ a b, parseIP n.Host = some a ∧ parseIP host = some b ∧ a = b) ∨
       (parseIP n.Host = none ∧ parseIP host = none ∧ host = n.Host)) := by
  have hcong : host = n.Host → parseIP host = parseIP n.Host := fun h => by rw [h]
  by_cases h1 : isLoopbackOpt (parseIP n.Host) = true
  · constructor
    · intro _
      exact Or.inl h1
    · intro _
      simp [matchHost, h1]
  · have h1f : isLoopbackOpt (parseIP n.Host) = false := by simpa using h1
    by_cases h2 : (isLoopbackOpt (parseIP host) && n.Local) = true
    · have h2x : isLoopbackOpt (parseIP host) = true ∧ n.Local = true := by
        simpa using h2
      constructor
      · intro _
        exact Or.inr (Or.inl h2x)
      · intro _
        simp [matchHost, h1f, h2]
    · have h2f : (isLoopbackOpt (parseIP host) && n.Local) = false := by simpa using h2
      have h2p : ¬ (isLoopbackOpt (parseIP host) = true ∧ n.Local = true) :=
        fun hc => h2 (by simp [hc.1, hc.2])
      have hbody : matchHost n host =
          (match parseIP n.Host, parseIP host with
           | some a, some b => b == a
           | _, _ => host == n.Host) := by
        simp [matchHost, h1f, h2f]
      rw [hbody]
      cases hn : parseIP n.Host with
      | none =>
        cases hh : parseIP host with
        | none =>
          rw [hh] at h2p
          simp [isLoopbackOpt, h2p]
        | some b =>
          rw [hh] at h2p
          have h2q : ¬ (isLoopback b = true ∧ n.Local = true) := by
            simpa [isLoopbackOpt] using h2p
          simp [isLoopbackOpt, h2q]
          intro hEq
          have hx := hcong hEq
          rw [hn, hh] at hx
          simp at hx
      | some a =>
        rw [hn] at h1
        have h1q : ¬ isLoopback a = true := by simpa [isLoopbackOpt] using h1
        cases hh : parseIP host with
        | none =>
          rw [hh] at h2p
          simp [isLoopbackOpt, h1q, h2p]
          intro hEq
          have hx := hcong hEq
          rw [hn, hh] at hx
          simp at hx
        | some b =>
          rw [hh] at h2p
          have h2q : ¬ (isLoopback b = true ∧ n.Local = true) := by
            simpa [isLoopbackOpt] using h2p
          simp [isLoopbackOpt, h1q, h2q]
          exact eq_comm

/-- The GetCreds loop returns the first node that yields a nonempty
user for the queried host and port. -/
theorem getCredsLoop_first (db : credsDB) (host : String) (port : Int)
    (ns : List Node) (n : Node)
    (h : ns.find? (fun m => decide ((getMemcachedCreds m host port).1 ≠ "")) = some n) :
    getCredsLoop db host port ns = (n.User, db.specialUser, n.Password) := by
  induction ns with
  | nil => simp [List.find?] at h
  | cons m rest ih =>
    rw [List.find?] at h
    by_cases hm : (getMemcachedCreds m host port).1 ≠ ""
    · rw [show decide ((getMemcachedCreds m host port).1 ≠ "") = true by simpa using hm] at h
      injection h with h2
      subst h2
      have hpos := getMemcachedCreds_pos m host port hm
      have hu : m.User ≠ "" := by
        have hm2 := hm
        rw [hpos.1] at hm2
        simpa using hm2
      simp [getCredsLoop, hpos.1, hu]
    · rw [show decide ((getMemcachedCreds m host port).1 ≠ "") = false by simpa using hm] at h
      have hmp : (getMemcachedCreds m host port).1 = "" := by simpa using hm
      cases rest with
      | nil => simp [List.find?] at h
      | cons r rs =>
        have ihh := ih h
        simpa [getCredsLoop, hmp] using ihh

/-- The GetCreds loop yields empty strings when no node matches both
the host and the port. -/
theorem getCredsLoop_no_match (db : credsDB) (host : String) (port : Int) (ns : List Node)
    (h : ∀ n ∈ ns, matchHost n host = false ∨ port ∉ n.Ports) :
    getCredsLoop db host port ns = ("", "", "") := by
  induction ns with
  | nil => rfl
  | cons m rest ih =>
    have hmp : getMemcachedCreds m host port = ("", "") := by
      rcases h m (List.mem_cons_self _ _) with h1 | h1
      · simp [getMemcachedCreds, h1]
      · by_cases hmt : matchHost m host = true
        · simp [getMemcachedCreds, hmt, h1]
        · have hmf : matchHost m host = false := by simpa using hmt
          simp [getMemcachedCreds, hmf]
    cases rest with
    | nil => simp [getCredsLoop, hmp]
    | cons r rs =>
      have ihh := ih (fun n hn => h n (List.mem_cons_of_mem _ hn))
      simpa [getCredsLoop, hmp] using ihh

/-! ### Claim theorems -/

/-- C1: for every snapshot and every credential pair where the user name
is non-empty, begins with '@', and the password equals the snapshot's
derived special password, VerifyPassword returns an identity with that
user name and domain "admin" without performing any outbound call (the
issued request list is empty) and without inserting anything into the
auth cache (the service state is returned unchanged). -/
theorem C1_special_creds_bypass {Cb : Type} (s : Svc Cb) (db : credsDB)
    (user password : String) (resp : HTTPResult)
    (hdb : s.db = some db)
    (_hne : user ≠ "")
    (hat : user.data.headD (Char.ofNat 32) = Char.ofNat 64)
    (hpw : password = db.specialPassword) :
    VerifyPassword s user password resp =
      ⟨Except.ok { name := user, domain := "admin", password := password }, s, []⟩ :=
  verifyPassword_special s db user password resp hdb hat hpw

/-- Witness for C1 at the repository's own test fixture: special user
"@component" with the local node's password "barfoo". -/
theorem C1_special_creds_bypass_witness :
    VerifyPassword sampleSvc "@component" "barfoo" sampleResp =
      ⟨Except.ok { name := "@component", domain := "admin", password := "barfoo" },
       sampleSvc, []⟩ :=
  C1_special_creds_bypass sampleSvc sampleDB "@component" "barfoo" sampleResp rfl
    (by decide) (by decide) (by rfl)

/-- C3: GetCreds iterates the snapshot's node list; a node matches a
queried host iff the node's host is loopback, or the queried host is
loopback and the node is local, or both parse as IP addresses and are
equal, or neither parses and the host strings are textually equal; the
first node matching host and port (with a nonempty user, which is what
the Go loop's nonempty-user test selects) yields its user and password
together with the special user; when no node matches host and port the
result is empty strings with no error. -/
theorem C3_get_creds_lookup {Cb : Type} (s : Svc Cb) (db : credsDB)
    (host : String) (port : Int)
    (hdb : s.db = some db) :
    (∀ n : Node, matchHost n host = true ↔
       (isLoopbackOpt (parseIP n.Host) = true ∨
        (isLoopbackOpt (parseIP host) = true ∧ n.Local = true) ∨
        (∃ a b, parseIP n.Host = some a ∧ parseIP host = some b ∧ a = b) ∨
        (parseIP n.Host = none ∧ parseIP host = none ∧ host = n.Host))) ∧
    (∀ n : Node,
       db.nodes.find? (fun m => decide ((getMemcachedCreds m host port).1 ≠ "")) = some n →
       GetCreds s host port = Except.ok (n.User, db.specialUser, n.Password)) ∧
    ((∀ n ∈ db.nodes, matchHost n host = false ∨ port ∉ n.Ports) →
       GetCreds s host port = Except.ok ("", "", "")) := by
  have hf : fetchDB s = some db := hdb
  refine ⟨fun n => matchHost_iff n host, ?_, ?_⟩
  · intro n hfind
    simp [GetCreds, hf, getCredsLoop_first db host port db.nodes n hfind]
  · intro hall
    simp [GetCreds, hf, getCredsLoop_no_match db host port db.nodes hall]

/-- Witness for C3 at the spec's scenario: node beta.local with ports
9000 and 12000; port 9000 yields the creds, port 7000 yields empties. -/
theorem C3_get_creds_lookup_witness :
    GetCreds c3Svc "beta.local" 9000 = Except.ok ("_admin", "@", "foobar") ∧
    GetCreds c3Svc "beta.local" 7000 = Except.ok ("", "", "") := by
  refine ⟨?_, ?_⟩
  · exact (C3_get_creds_lookup c3Svc c3DB "beta.local" 9000 rfl).2.1 betaNode (by decide)
  · exact (C3_get_creds_lookup c3Svc c3DB "beta.local" 7000 rfl).2.2 (by decide)

/-- C4: permission checking looks up the cache under
(permissions-version, user, domain, permission); a miss performs exactly
one outbound check authenticated with the snapshot's special user and
special password (not the subject's credentials) and stores the verdict
— allow (200) or deny (401) alike — so an identical lookup under the
same version hits with zero outbound calls, while an update that bumps
the permissions-version makes the next identical lookup miss and call
out again. -/
theorem C4_permission_cache {Cb : Type} (s : Svc Cb) (db : credsDB)
    (u d p : String) (b : Bool) (st : String) (body : BodyParse) (c2 : Cache)
    (hdb : s.db = some db)
    (hcap : 0 < s.upCache.capacity)
    (hempty : s.upCache.entries = [])
    (hv : (cacheToCredsDB c2).permissionsVersion ≠ db.permissionsVersion) :
    checkPermission s u d p (HTTPResult.response (if b then 200 else 401) st body) =
      ⟨Except.ok b,
       { s with upCache := ⟨s.upCache.capacity, [(⟨db.permissionsVersion, u, d, p⟩, b)]⟩ },
       [⟨db.permissionCheckURL, db.specialUser, db.specialPassword, u, d, p⟩]⟩ ∧
    (∀ resp2 : HTTPResult,
       checkPermission
         { s with upCache := ⟨s.upCache.capacity, [(⟨db.permissionsVersion, u, d, p⟩, b)]⟩ }
         u d p resp2 =
       ⟨Except.ok b,
        { s with upCache := ⟨s.upCache.capacity, [(⟨db.permissionsVersion, u, d, p⟩, b)]⟩ },
        []⟩) ∧
    (∀ resp3 : HTTPResult,
       (checkPermission
         (UpdateDB
           { s with upCache := ⟨s.upCache.capacity, [(⟨db.permissionsVersion, u, d, p⟩, b)]⟩ }
           c2).svc
         u d p resp3).calls =
       [⟨(cacheToCredsDB c2).permissionCheckURL, (cacheToCredsDB c2).specialUser,
         (cacheToCredsDB c2).specialPassword, u, d, p⟩]) := by
  have hf : fetchDB s = some db := hdb
  have hkey : s.upCache.get ⟨db.permissionsVersion, u, d, p⟩ = (none, s.upCache) := by
    simp [LRUCache.get, hempty]
  have hserver :
      checkPermissionOnServer db u d p (HTTPResult.response (if b then 200 else 401) st body) =
        (Except.ok b, [⟨db.permissionCheckURL, db.specialUser, db.specialPassword, u, d, p⟩]) := by
    cases b <;> simp [checkPermissionOnServer]
  have hset : s.upCache.set ⟨db.permissionsVersion, u, d, p⟩ b =
      ⟨s.upCache.capacity, [(⟨db.permissionsVersion, u, d, p⟩, b)]⟩ := by
    simp only [LRUCache.set, hempty, List.filter_nil]
    rw [List.take_of_length_le (by simpa using hcap)]
  have hfirst : checkPermission s u d p (HTTPResult.response (if b then 200 else 401) st body) =
      ⟨Except.ok b,
       { s with upCache := ⟨s.upCache.capacity, [(⟨db.permissionsVersion, u, d, p⟩, b)]⟩ },
       [⟨db.permissionCheckURL, db.specialUser, db.specialPassword, u, d, p⟩]⟩ := by
    rw [show checkPermission s u d p (HTTPResult.response (if b then 200 else 401) st body) =
        ⟨Except.ok b, { s with upCache := s.upCache.set ⟨db.permissionsVersion, u, d, p⟩ b },
         [⟨db.permissionCheckURL, db.specialUser, db.specialPassword, u, d, p⟩]⟩ by
      simp [checkPermission, hf, hkey, hserver]]
    rw [hset]
  refine ⟨hfirst, ?_, ?_⟩
  · intro resp2
    have hget2 :
        (⟨s.upCache.capacity, [(⟨db.permissionsVersion, u, d, p⟩, b)]⟩ :
            LRUCache userPermission Bool).get ⟨db.permissionsVersion, u, d, p⟩ =
          (some b, ⟨s.upCache.capacity, [(⟨db.permissionsVersion, u, d, p⟩, b)]⟩) := by
      simp [LRUCache.get]
    simp [checkPermission, fetchDB, hdb, hget2]
  · intro resp3
    have hupd :
        (UpdateDB
          { s with upCache := ⟨s.upCache.capacity, [(⟨db.permissionsVersion, u, d, p⟩, b)]⟩ }
          c2).svc.db = some (cacheToCredsDB c2) ∧
        (UpdateDB
          { s with upCache := ⟨s.upCache.capacity, [(⟨db.permissionsVersion, u, d, p⟩, b)]⟩ }
          c2).svc.upCache =
          ⟨s.upCache.capacity, [(⟨db.permissionsVersion, u, d, p⟩, b)]⟩ := by
      by_cases ht :
          needRefreshTLS
            { s with upCache := ⟨s.upCache.capacity, [(⟨db.permissionsVersion, u, d, p⟩, b)]⟩ }
            (cacheToCredsDB c2) <;>
        simp [UpdateDB, updateDBLocked, ht, notifyTLSChange, notifyTLSChangeLocked]
    have hkne : ((⟨db.permissionsVersion, u, d, p⟩ : userPermission) ==
        (⟨(cacheToCredsDB c2).permissionsVersion, u, d, p⟩ : userPermission)) = false := by
      simp [userPermission.mk.injEq]
      intro hx
      exact absurd hx.symm hv
    have hget3 :
        (⟨s.upCache.capacity, [(⟨db.permissionsVersion, u, d, p⟩, b)]⟩ :
            LRUCache userPermission Bool).get
          ⟨(cacheToCredsDB c2).permissionsVersion, u, d, p⟩ =
        (none, ⟨s.upCache.capacity, [(⟨db.permissionsVersion, u, d, p⟩, b)]⟩) := by
      simp [LRUCache.get, List.find?, hkne]
    rcases hs3 : checkPermissionOnServer (cacheToCredsDB c2) u d p resp3 with ⟨r3, calls3⟩
    have hcalls3 : calls3 =
        [⟨(cacheToCredsDB c2).permissionCheckURL, (cacheToCredsDB c2).specialUser,
          (cacheToCredsDB c2).specialPassword, u, d, p⟩] := by
      have : (checkPermissionOnServer (cacheToCredsDB c2) u d p resp3).2 =
          [⟨(cacheToCredsDB c2).permissionCheckURL, (cacheToCredsDB c2).specialUser,
            (cacheToCredsDB c2).specialPassword, u, d, p⟩] := by
        cases resp3 with
        | transportError e => rfl
        | response code stx bx =>
          by_cases h200 : code = 200
          · simp [checkPermissionOnServer, h200]
          · by_cases h401 : code = 401 <;> simp [checkPermissionOnServer, h200, h401]
      rw [hs3] at this
      exact this
    cases r3 with
    | error e =>
      simp [checkPermission, fetchDB, hupd.1, hupd.2, hget3, hs3, hcalls3]
    | ok a =>
      simp [checkPermission, fetchDB, hupd.1, hupd.2, hget3, hs3, hcalls3]

/-- Witness for C4: miss, hit, then miss again after a version bump, at
the sample fixture. -/
theorem C4_permission_cache_witness :
    checkPermission sampleSvc "U" "D" "P"
        (HTTPResult.response (if true then 200 else 401) "200 OK" (BodyParse.ok "" "")) =
      ⟨Except.ok true,
       { sampleSvc with upCache :=
          ⟨sampleSvc.upCache.capacity, [(⟨sampleDB.permissionsVersion, "U", "D", "P"⟩, true)]⟩ },
       [⟨sampleDB.permissionCheckURL, sampleDB.specialUser, sampleDB.specialPassword,
         "U", "D", "P"⟩]⟩ ∧
    checkPermission
        { sampleSvc with upCache :=
           ⟨sampleSvc.upCache.capacity, [(⟨sampleDB.permissionsVersion, "U", "D", "P"⟩, true)]⟩ }
        "U" "D" "P" sampleResp =
      ⟨Except.ok true,
       { sampleSvc with upCache :=
          ⟨sampleSvc.upCache.capacity, [(⟨sampleDB.permissionsVersion, "U", "D", "P"⟩, true)]⟩ },
       []⟩ ∧
    (checkPermission
        (UpdateDB
          { sampleSvc with upCache :=
             ⟨sampleSvc.upCache.capacity, [(⟨sampleDB.permissionsVersion, "U", "D", "P"⟩, true)]⟩ }
          sampleCache2).svc
        "U" "D" "P" sampleResp).calls =
      [⟨(cacheToCredsDB sampleCache2).permissionCheckURL,
        (cacheToCredsDB sampleCache2).specialUser,
        (cacheToCredsDB sampleCache2).specialPassword, "U", "D", "P"⟩] := by
  have h := C4_permission_cache sampleSvc sampleDB "U" "D" "P" true "200 OK"
    (BodyParse.ok "" "") sampleCache2 rfl (by decide) rfl (by decide)
  exact ⟨h.1, h.2.1 sampleResp, h.2.2 sampleResp⟩

/-- C5: on an auth-cache miss, VerifyPassword performs the outbound
identity-verification call; when the authority answers 401 it returns
the authentication-failure error and inserts nothing (the service state
is unchanged, so repeating the same failing credentials calls out
again); when the authority answers 200 the resolved identity is cached
exactly when its domain is "admin" or "local". -/
theorem C5_auth_cache_on_miss {Cb : Type} (s : Svc Cb) (db : credsDB) (u p : String)
    (hdb : s.db = some db)
    (hns : verifySpecialCreds db u p = false)
    (hmiss : (s.authCache.get ⟨db.authVersion, u, p⟩).1 = none)
    (hurl : db.authCheckURL ≠ "") :
    (∀ st body,
       (VerifyPassword s u p (HTTPResult.response 401 st body)).creds =
         Except.error GoError.errNoAuth ∧
       (VerifyPassword s u p (HTTPResult.response 401 st body)).svc = s ∧
       (VerifyPassword s u p (HTTPResult.response 401 st body)).calls.length = 1) ∧
    (∀ st body st2 body2,
       (VerifyPassword (VerifyPassword s u p (HTTPResult.response 401 st body)).svc
          u p (HTTPResult.response 401 st2 body2)).calls.length = 1) ∧
    (∀ st nm dm,
       (VerifyPassword s u p (HTTPResult.response 200 st (BodyParse.ok nm dm))).creds =
         Except.ok ⟨nm, dm, ""⟩ ∧
       (VerifyPassword s u p (HTTPResult.response 200 st (BodyParse.ok nm dm))).calls.length = 1 ∧
       (VerifyPassword s u p (HTTPResult.response 200 st (BodyParse.ok nm dm))).svc.authCache =
         (if dm = "admin" ∨ dm = "local"
          then s.authCache.set ⟨db.authVersion, u, p⟩ ⟨nm, dm⟩
          else s.authCache)) := by
  have hf : fetchDB s = some db := hdb
  have hget := lru_get_of_miss s.authCache ⟨db.authVersion, u, p⟩ hmiss
  have h401 : ∀ st body,
      VerifyPassword s u p (HTTPResult.response 401 st body) =
        ⟨Except.error GoError.errNoAuth, s,
         [⟨db.authCheckURL,
           copyHeader "Authorization"
             (headerSet [] "Authorization" (basicAuthHeaderValue u p))
             (copyHeader "Cookie"
               (headerSet [] "Authorization" (basicAuthHeaderValue u p))
               (copyHeader "ns-server-auth-token"
                 (headerSet [] "Authorization" (basicAuthHeaderValue u p))
                 (copyHeader tokenHeader
                   (headerSet [] "Authorization" (basicAuthHeaderValue u p)) [])))⟩]⟩ := by
    intro st body
    simp [VerifyPassword, hf, hns, hget, verifyPasswordOnServer, VerifyOnServer, hurl,
      executeReqAndGetCreds]
  refine ⟨?_, ?_, ?_⟩
  · intro st body
    rw [h401 st body]
    exact ⟨rfl, rfl, rfl⟩
  · intro st body st2 body2
    rw [h401 st body]
    rw [h401 st2 body2]
    rfl
  · intro st nm dm
    have hexec : executeReqAndGetCreds (HTTPResult.response 200 st (BodyParse.ok nm dm)) =
        Except.ok { name := nm, domain := dm, password := "" } := by
      simp [executeReqAndGetCreds]
    by_cases hdm : dm = "admin" ∨ dm = "local" <;>
      refine ⟨?_, ?_, ?_⟩ <;>
        simp [VerifyPassword, hf, hns, hget, verifyPasswordOnServer, VerifyOnServer, hurl,
          hexec, hdm]

/-- Witness for C5: a failing login "joe"/"pw" is not cached and a
successful admin login is cached, at the sample fixture. -/
theorem C5_auth_cache_on_miss_witness :
    (VerifyPassword sampleSvc "joe" "pw"
        (HTTPResult.response 401 "401 Unauthorized" (BodyParse.ok "" ""))).creds =
      Except.error GoError.errNoAuth ∧
    (VerifyPassword sampleSvc "joe" "pw"
        (HTTPResult.response 401 "401 Unauthorized" (BodyParse.ok "" ""))).svc = sampleSvc ∧
    (VerifyPassword sampleSvc "joe" "pw"
        (HTTPResult.response 200 "200 OK" (BodyParse.ok "Administrator" "admin"))).svc.authCache =
      (if ("admin" : String) = "admin" ∨ ("admin" : String) = "local"
       then sampleSvc.authCache.set ⟨sampleDB.authVersion, "joe", "pw"⟩ ⟨"Administrator", "admin"⟩
       else sampleSvc.authCache) := by
  have h := C5_auth_cache_on_miss sampleSvc sampleDB "joe" "pw" rfl (by decide) rfl (by decide)
  exact ⟨(h.1 "401 Unauthorized" (BodyParse.ok "" "")).1,
         (h.1 "401 Unauthorized" (BodyParse.ok "" "")).2.1,
         (h.2.2 "200 OK" "Administrator" "admin").2.2⟩

/-- C6: ResetSvc requires a non-nil error (a nil error is rejected: the
Go code panics), clears the snapshot and records the error; until the
next update installs a snapshot, every verification operation — password
verification, permission check, certificate extraction, service
credential lookup and the TLS accessors — fails with that recorded
error. -/
theorem C6_reset_makes_stale {Cb : Type} (s : Svc Cb) (e : GoError) :
    ResetSvc none s = none ∧
    (∀ s2, ResetSvc (some e) s = some s2 →
      s2.db = none ∧ s2.staleErr = e ∧
      (∀ u p resp, VerifyPassword s2 u p resp = ⟨Except.error e, s2, []⟩) ∧
      (∀ u d pm resp, checkPermission s2 u d pm resp = ⟨Except.error e, s2, []⟩) ∧
      (∀ md5f req resp, MaybeGetCredsFromCert md5f s2 req resp = ⟨GoOutcome.err e, s2, []⟩) ∧
      (∀ host port, GetCreds s2 host port = Except.error e) ∧
      (∀ hdrs resp, VerifyOnServer s2 hdrs resp = (Except.error e, [])) ∧
      GetClientCertAuthType s2 = Except.error e ∧
      GetTLSConfig s2 = Except.error e ∧
      (∀ c : Cache, (UpdateDB s2 c).svc.db = some (cacheToCredsDB c))) := by
  refine ⟨rfl, ?_⟩
  intro s2 h2
  have hx := Option.some.inj h2
  subst hx
  exact ⟨rfl, rfl, fun u p resp => rfl, fun u d pm resp => rfl,
    fun md5f req resp => rfl, fun host port => rfl, fun hdrs resp => rfl,
    rfl, rfl, fun c => rfl⟩

/-- Witness for C6: after resetting the sample service with a
disconnect error, lookups fail with that error. -/
theorem C6_reset_makes_stale_witness :
    ResetSvc none sampleSvc = none ∧
    GetCreds resetSampleSvc "beta.local" 9000 = Except.error (GoError.external "disconnected") ∧
    (VerifyPassword resetSampleSvc "@component" "barfoo" sampleResp).creds =
      Except.error (GoError.external "disconnected") := by
  have h := C6_reset_makes_stale sampleSvc (GoError.external "disconnected")
  have h2 := h.2 resetSampleSvc rfl
  exact ⟨h.1, h2.2.2.2.2.2.1 "beta.local" 9000,
    by rw [h2.2.2.1 "@component" "barfoo" sampleResp]⟩

/-- C7: an update triggers a TLS-change notification iff there was no
previous snapshot, or the certificate version differs, or the
client-cert-auth mode differs, or the TLS policy differs (on the
enqueued notification the notifier's pending slot is set; otherwise the
notifier is untouched); two successive updates whose TLS-relevant
fields are identical do not trigger a second notification. -/
theorem C7_tls_notification {Cb : Type} (s : Svc Cb) (c c2 : Cache) :
    ((UpdateDB s c).tlsUpdated = true ↔
      s.db = none ∨
      (∃ old, s.db = some old ∧
        (old.certVersion ≠ (cacheToCredsDB c).certVersion ∨
         old.clientCertAuthState ≠ (cacheToCredsDB c).clientCertAuthState ∨
         old.tlsConfig ≠ (cacheToCredsDB c).tlsConfig))) ∧
    ((UpdateDB s c).tlsUpdated = true → (UpdateDB s c).svc.tlsNotifier.pending = true) ∧
    ((UpdateDB s c).tlsUpdated = false → (UpdateDB s c).svc.tlsNotifier = s.tlsNotifier) ∧
    ((cacheToCredsDB c2).certVersion = (cacheToCredsDB c).certVersion →
     (cacheToCredsDB c2).clientCertAuthState = (cacheToCredsDB c).clientCertAuthState →
     (cacheToCredsDB c2).tlsConfig = (cacheToCredsDB c).tlsConfig →
     (UpdateDB (UpdateDB s c).svc c2).tlsUpdated = false) := by
  have hdbsvc : (UpdateDB s c).svc.db = some (cacheToCredsDB c) := by
    by_cases ht : needRefreshTLS s (cacheToCredsDB c) <;>
      simp [UpdateDB, updateDBLocked, ht, notifyTLSChange, notifyTLSChangeLocked]
  refine ⟨?_, ?_, ?_, ?_⟩
  · rw [show (UpdateDB s c).tlsUpdated = needRefreshTLS s (cacheToCredsDB c) from rfl]
    cases hdb : s.db with
    | none => simp [needRefreshTLS, hdb]
    | some old => simp [needRefreshTLS, hdb, or_assoc]
  · intro ht
    have ht2 : needRefreshTLS s (cacheToCredsDB c) = true := ht
    simp [UpdateDB, updateDBLocked, ht2, notifyTLSChange, notifyTLSChangeLocked]
  · intro ht
    have ht2 : needRefreshTLS s (cacheToCredsDB c) = false := ht
    simp [UpdateDB, updateDBLocked, ht2]
  · intro h2 h3 h4
    rw [show (UpdateDB (UpdateDB s c).svc c2).tlsUpdated =
        needRefreshTLS (UpdateDB s c).svc (cacheToCredsDB c2) from rfl]
    simp [needRefreshTLS, hdbsvc, h2, h3, h4]

/-- Witness for C7: the first update (no previous snapshot) notifies;
a second update changing only the permissions version does not. -/
theorem C7_tls_notification_witness :
    (UpdateDB staleSvc sampleCache).tlsUpdated = true ∧
    (UpdateDB (UpdateDB staleSvc sampleCache).svc sampleCache2).tlsUpdated = false := by
  have h := C7_tls_notification staleSvc sampleCache sampleCache2
  exact ⟨h.1.mpr (Or.inl rfl), h.2.2.2 (by decide) (by decide) (by decide)⟩

/-- C8: the TLS notifier holds at most one callback: registering while
one is registered fails with the callback-already-registered error and
leaves the notifier, including the existing callback, unchanged;
registering on a free notifier succeeds and itself enqueues an
immediate notification (the pending slot is set). -/
theorem C8_register_callback {Cb : Type} (n : TLSNotifier Cb) (cb : Cb) :
    (∀ cbOld, n.callback = some cbOld →
       registerCallback n cb = (some GoError.errCallbackAlreadyRegistered, n)) ∧
    (n.callback = none →
       registerCallback n cb = (none, ⟨some cb, true⟩)) := by
  refine ⟨?_, ?_⟩
  · intro cbOld h
    simp [registerCallback, h]
  · intro h
    simp [registerCallback, h, notifyTLSChangeLocked]

/-- Witness for C8 on a Unit-callback notifier. -/
theorem C8_register_callback_witness :
    registerCallback (⟨none, false⟩ : TLSNotifier Unit) Unit.unit =
      (none, ⟨some Unit.unit, true⟩) ∧
    registerCallback (⟨some Unit.unit, false⟩ : TLSNotifier Unit) Unit.unit =
      (some GoError.errCallbackAlreadyRegistered, ⟨some Unit.unit, false⟩) :=
  ⟨(C8_register_callback ⟨none, false⟩ Unit.unit).2 rfl,
   (C8_register_callback ⟨some Unit.unit, false⟩ Unit.unit).1 Unit.unit rfl⟩

/-- C9: when no node in the pushed configuration is flagged local, the
derived special password is the empty string, and the special-credential
comparison — which requires neither a local node to exist nor the
special password to be non-empty — then accepts any non-empty user
beginning with '@' paired with the empty password as an admin
identity. -/
theorem C9_no_local_node_empty_special {Cb : Type} (s : Svc Cb) (c : Cache)
    (user : String) (resp : HTTPResult)
    (hnl : ∀ n ∈ c.Nodes, n.Local = false)
    (_hne : user ≠ "")
    (hat : user.data.headD (Char.ofNat 32) = Char.ofNat 64)
    (hdb : s.db = some (cacheToCredsDB c)) :
    (cacheToCredsDB c).specialPassword = "" ∧
    verifySpecialCreds (cacheToCredsDB c) user "" = true ∧
    VerifyPassword s user "" resp =
      ⟨Except.ok { name := user, domain := "admin", password := "" }, s, []⟩ := by
  have hfind : c.Nodes.find? (fun node => node.Local) = none := by
    apply List.find?_eq_none.mpr
    intro x hx
    simp [hnl x hx]
  have hsp : (cacheToCredsDB c).specialPassword = "" := by
    simp [cacheToCredsDB, hfind]
  have hdata : user.data ≠ [] := by
    intro h
    rw [h] at hat
    exact absurd hat (by decide)
  have hlen : 0 < user.length := List.length_pos.mpr hdata
  have hat2 : user.data.head?.getD (Char.ofNat 32) = Char.ofNat 64 := by simpa using hat
  refine ⟨hsp, ?_, ?_⟩
  · simp [verifySpecialCreds, hat2, hlen, hsp]
  · exact verifyPassword_special s (cacheToCredsDB c) user "" resp hdb hat hsp.symm

/-- Witness for C9: the beta.local-only configuration has no local node
and "@component" with the empty password passes. -/
theorem C9_no_local_node_empty_special_witness :
    (cacheToCredsDB noLocalCache).specialPassword = "" ∧
    VerifyPassword (mkSvc (some (cacheToCredsDB noLocalCache))) "@component" "" sampleResp =
      ⟨Except.ok { name := "@component", domain := "admin", password := "" },
       mkSvc (some (cacheToCredsDB noLocalCache)), []⟩ := by
  have h := C9_no_local_node_empty_special (mkSvc (some (cacheToCredsDB noLocalCache)))
    noLocalCache "@component" sampleResp (by decide) (by decide) (by decide) rfl
  exact ⟨h.1, h.2.2⟩

/-- C10: with a current snapshot whose auth-check URL is the empty
string, VerifyOnServer and getUserIdentityFromCert fail with the
authentication-failure error ErrNoAuth with no outbound call, and the
certificate extraction path on a cache miss likewise issues no call and
caches nothing (the service state is returned unchanged). -/
theorem C10_empty_auth_check_url {Cb : Type} (s : Svc Cb) (db : credsDB)
    (hdb : s.db = some db)
    (hurl : db.authCheckURL = "") :
    (∀ hdrs resp, VerifyOnServer s hdrs resp = (Except.error GoError.errNoAuth, [])) ∧
    (∀ cert resp, getUserIdentityFromCert cert db resp = (Except.error GoError.errNoAuth, [])) ∧
    (∀ (md5f : List Nat → List Nat) (conn : TLSConnState) (cert : Certificate)
       (rest : List Certificate) (resp : HTTPResult),
       conn.PeerCertificates = cert :: rest →
       ¬ (db.clientCertAuthState = "disable" ∨ db.clientCertAuthState = "") →
       (s.clientCertCache.get ⟨md5f cert.Raw, db.clientCertAuthVersion⟩).1 = none →
       MaybeGetCredsFromCert md5f s ⟨some conn⟩ resp =
         ⟨GoOutcome.err GoError.errUserNotFound, s, []⟩) := by
  have hf : fetchDB s = some db := hdb
  refine ⟨?_, ?_, ?_⟩
  · intro hdrs resp
    simp [VerifyOnServer, hf, hurl]
  · intro cert resp
    simp [getUserIdentityFromCert, hurl]
  · intro md5f conn cert rest resp hcerts hstate hmiss
    have hget := lru_get_of_miss s.clientCertCache ⟨md5f cert.Raw, db.clientCertAuthVersion⟩ hmiss
    simp [MaybeGetCredsFromCert, hf, hcerts, hstate, hget, getUserIdentityFromCert, hurl]

/-- Witness for C10 at the no-auth-URL fixture. -/
theorem C10_empty_auth_check_url_witness :
    VerifyOnServer svcNoURL [] sampleResp = (Except.error GoError.errNoAuth, []) ∧
    getUserIdentityFromCert ⟨[1, 2, 3]⟩ noURLDB sampleResp =
      (Except.error GoError.errNoAuth, []) ∧
    MaybeGetCredsFromCert (fun b => b) svcNoURL reqWithCert sampleResp =
      ⟨GoOutcome.err GoError.errUserNotFound, svcNoURL, []⟩ := by
  have h := C10_empty_auth_check_url svcNoURL noURLDB rfl rfl
  exact ⟨h.1 [] sampleResp, h.2.1 ⟨[1, 2, 3]⟩ sampleResp,
         h.2.2 (fun b => b) ⟨[⟨[1, 2, 3]⟩]⟩ ⟨[1, 2, 3]⟩ [] sampleResp rfl (by decide) rfl⟩

/-- C2 counterexample: the claim says certificate extraction is a no-op
(no identity, no error) on a TLS connection with no peer certificate
regardless of the configured mode, including "mandatory"; but in
mandatory mode with no peer certificate the code indexes the empty
certificate slice and panics instead of returning. -/
theorem C2_cert_noop_counterexample :
    (MaybeGetCredsFromCert (fun b => b) svcMandatory reqNoPeerCert sampleResp).outcome ≠
      GoOutcome.ok none ∧
    (MaybeGetCredsFromCert (fun b => b) svcMandatory reqNoPeerCert sampleResp).outcome =
      GoOutcome.panicked "runtime error: index out of range" :=
  ⟨by decide, by rfl⟩

/-- C2 (amended): certificate identity extraction is a no-op — no
identity, no error — for a request without TLS state (whatever the
mode), whenever the mode is "disable" or unset (whether or not a
certificate is presented), and in "enable" mode when no peer certificate
is presented; but under any other mode, including "mandatory", a TLS
connection with no peer certificate makes the code panic on an
out-of-range index rather than return. -/
theorem C2_cert_noop_amended {Cb : Type} (s : Svc Cb) (db : credsDB)
    (md5f : List Nat → List Nat) (req : Request) (resp : HTTPResult)
    (hdb : s.db = some db) :
    (req.TLS = none → MaybeGetCredsFromCert md5f s req resp = ⟨GoOutcome.ok none, s, []⟩) ∧
    (db.clientCertAuthState = "disable" ∨ db.clientCertAuthState = "" →
       MaybeGetCredsFromCert md5f s req resp = ⟨GoOutcome.ok none, s, []⟩) ∧
    (∀ conn, req.TLS = some conn → conn.PeerCertificates = [] →
       db.clientCertAuthState = "enable" →
       MaybeGetCredsFromCert md5f s req resp = ⟨GoOutcome.ok none, s, []⟩) ∧
    (∀ conn, req.TLS = some conn → conn.PeerCertificates = [] →
       db.clientCertAuthState ≠ "disable" → db.clientCertAuthState ≠ "" →
       db.clientCertAuthState ≠ "enable" →
       (MaybeGetCredsFromCert md5f s req resp).outcome =
         GoOutcome.panicked "runtime error: index out of range") := by
  have hf : fetchDB s = some db := hdb
  refine ⟨?_, ?_, ?_, ?_⟩
  · intro h
    simp [MaybeGetCredsFromCert, hf, h]
  · intro h
    cases hr : req.TLS with
    | none => simp [MaybeGetCredsFromCert, hf, hr]
    | some conn => simp [MaybeGetCredsFromCert, hf, hr, h]
  · intro conn hr hempty hen
    simp [MaybeGetCredsFromCert, hf, hr, hempty, hen]
  · intro conn hr hempty hd hu he
    simp [MaybeGetCredsFromCert, hf, hr, hempty, hd, hu, he]

/-- Witness for the amended C2: disabled mode is a no-op even with a
certificate presented, and mandatory mode with no certificate panics. -/
theorem C2_cert_noop_amended_witness :
    MaybeGetCredsFromCert (fun b => b) svcDisabled reqWithCert sampleResp =
      ⟨GoOutcome.ok none, svcDisabled, []⟩ ∧
    (MaybeGetCredsFromCert (fun b => b) svcMandatory reqNoPeerCert sampleResp).outcome =
      GoOutcome.panicked "runtime error: index out of range" := by
  refine ⟨?_, ?_⟩
  · exact (C2_cert_noop_amended svcDisabled disDB (fun b => b) reqWithCert sampleResp rfl).2.1
      (Or.inl rfl)
  · exact (C2_cert_noop_amended svcMandatory mandDB (fun b => b) reqNoPeerCert sampleResp
      rfl).2.2.2 ⟨[]⟩ rfl rfl (by decide) (by decide) (by decide)

end Cbauthimpl
